import Mathlib

/-!
Verification of the factoriolab recipe-adjustment core and its surrounding
services against the repository's natural-language specification.

The recipe-adjustment implementation itself (`RecipeService`: `bestMatch`,
`adjustRecipe`, `adjustSiloRecipes`, `adjustLaunchRecipeObjective`) is not
part of the provided sources -- only its test suite is -- so those operations
are modelled from the specification (sections 4.1-4.5 of the spec), with the
concrete numeric fixtures drawn from the spec's stated scenarios.  The
migration service (`MigrationService`) and the items-state selector
(`selectItemsState`) are embedded from their sources.
-/

namespace FactorioLab

/-- An `Entities<Rational>` map: item id to exact rational amount.  Items
absent from the map are `none`, mirroring a sparse JS object. -/
abbrev QMap := String → Option ℚ

/-! ## Effect aggregation (spec section 4.1, modelled from the spec) -/

/-- Modelled from the spec: the five effect channels a module may influence
(spec section 4.1); the `Module` entity itself is not in the provided
sources. -/
inductive EffectChannel where
  | speed
  | productivity
  | consumption
  | pollution
  | quality
deriving DecidableEq, Repr

/-- Modelled from the spec: a module's per-channel effect deltas; each may be
undefined, meaning no effect on that channel (spec section 3, "Module"). -/
structure ModuleEff where
  speed : Option ℚ := none
  productivity : Option ℚ := none
  consumption : Option ℚ := none
  pollution : Option ℚ := none
  quality : Option ℚ := none
deriving DecidableEq, Repr

/-- Effect delta of a module on one channel; an undefined channel contributes
zero (spec section 4.1, edge cases). -/
def ModuleEff.get (m : ModuleEff) : EffectChannel → ℚ
  | .speed => m.speed.getD 0
  | .productivity => m.productivity.getD 0
  | .consumption => m.consumption.getD 0
  | .pollution => m.pollution.getD 0
  | .quality => m.quality.getD 0

/-- Modelled from the spec: a `{module, count}` pair as consumed by the
effect aggregator.  Per spec section 4.1, "unlimited" counts have already
been resolved to zero by the settings layer, so the count here is a plain
rational. -/
structure ModuleEntry where
  module : ModuleEff
  count : ℚ
deriving DecidableEq, Repr

/-- Modelled from the spec: a beacon configuration -- its own module list, an
effectiveness multiplier, and a beacon count (spec sections 3 and 4.1). -/
structure BeaconConfig where
  count : ℚ
  effectivity : ℚ
  modules : List ModuleEntry
deriving DecidableEq, Repr

/-- Configured floor for every aggregated effect-channel multiplier: the
result of adding the signed delta sum to 1 may not fall below one fifth
(spec sections 3 and 4.1, default 0.20). -/
def EFFECT_FLOOR : ℚ := 1 / 5

/-- Signed delta sum for one channel: `moduleEffect * count` over machine
modules plus `moduleEffect * count * beaconEffectiveness * beaconCount` over
every beacon's modules; a channel in the machine's disallowed-effects set is
zeroed before summation (spec section 4.1). -/
def channelSum (ch : EffectChannel) (modules : List ModuleEntry)
    (beacons : List BeaconConfig) (disallowed : List EffectChannel) : ℚ :=
  if disallowed.contains ch then 0
  else
    (modules.map (fun e => e.module.get ch * e.count)).sum +
      (beacons.map (fun b =>
        (b.modules.map (fun e =>
          e.module.get ch * e.count * b.effectivity * b.count)).sum)).sum

/-- Net multiplier for one channel: the signed delta sum added to a 100%
baseline, clamped from below at the configured floor; the ceiling is
unbounded (spec section 4.1). -/
def effectMultiplier (sum : ℚ) : ℚ :=
  max EFFECT_FLOOR (1 + sum)

/-- Aggregated net multipliers per channel (spec section 4.1). -/
structure Effects where
  speed : ℚ
  productivity : ℚ
  consumption : ℚ
  pollution : ℚ
  quality : ℚ
deriving DecidableEq, Repr

/-- Modelled from the spec: the Effect Aggregator contract (spec section
4.1).  Each channel's multiplier is `1 +` the signed delta sum, clamped at
the configured floor. -/
def aggregateEffects (modules : List ModuleEntry) (beacons : List BeaconConfig)
    (disallowed : List EffectChannel) : Effects :=
  { speed := effectMultiplier (channelSum .speed modules beacons disallowed)
    productivity :=
      effectMultiplier (channelSum .productivity modules beacons disallowed)
    consumption :=
      effectMultiplier (channelSum .consumption modules beacons disallowed)
    pollution :=
      effectMultiplier (channelSum .pollution modules beacons disallowed)
    quality := effectMultiplier (channelSum .quality modules beacons disallowed) }

/-! ## Net-production reduction (spec section 4.4 step 10, modelled) -/

/-- Modelled from the spec: net-production reduction.  For an item appearing
in both resolved inputs and outputs, the smaller quantity is subtracted from
both sides; an item with equal quantities is removed from both maps (spec
sections 4.4 step 10 and 8). -/
def netReduce (inputs outputs : QMap) : QMap × QMap :=
  (fun k =>
    match inputs k, outputs k with
    | some a, some b => if b < a then some (a - b) else none
    | some a, none => some a
    | none, _ => none,
   fun k =>
    match inputs k, outputs k with
    | some a, some b => if a < b then some (b - a) else none
    | none, some b => some b
    | _, none => none)

/-! ## Recipe adjustment (spec section 4.4, modelled from the spec) -/

/-- Modelled from the spec: static recipe data needed by the adjuster (spec
section 3, "Recipe").  Producer lists, cost overrides and technology flags
are not needed by the properties below and are omitted. -/
structure SpecRecipe where
  inputs : QMap
  outputs : QMap
  time : ℚ
  usage : Option ℚ := none

/-- Modelled from the spec: static machine data needed by the adjuster (spec
section 3, "Machine").  Fuel categories and fixed consumption tables are not
needed by the properties below and are omitted. -/
structure SpecMachine where
  speed : ℚ
  usage : ℚ
  drain : Option ℚ := none
  pollution : ℚ := 0
  disallowedEffects : List EffectChannel := []
deriving Repr

/-- Modelled from the spec: the per-recipe user settings consumed by the
adjuster -- module list, beacon list and optional overclock percentage (spec
section 3, "RecipeSettings"). -/
structure SpecSettings where
  modules : List ModuleEntry := []
  beacons : List BeaconConfig := []
  overclock : Option ℚ := none
deriving Repr

/-- Modelled from the spec: the global settings consumed by the adjuster --
the additive productivity bonus already selected for the recipe's category,
the net-production flag, and the configured minimum tick floor for cycle
times (1/60 in Factorio mode; spec sections 3, 4.4 and 8). -/
structure SpecGlobal where
  productivityBonus : ℚ := 0
  netProductionOnly : Bool := false
  minimumTime : ℚ := 0
deriving Repr

/-- Result of adjusting one recipe (spec section 3, "AdjustedRecipe"). -/
structure SpecAdjusted where
  inputs : QMap
  outputs : QMap
  time : ℚ
  drain : Option ℚ
  consumption : ℚ
  pollution : ℚ
  productivity : ℚ

/-- Modelled from the spec: the machine-specific non-linear power curve for
overclock factors applied to positive usage.  The spec (section 9) records
that the exact curve is observed only through a literal fixture value, to be
pinned rather than re-derived; this model pins the tested point (overclock
factor 2 maps consumption 150 to 136838616/364903, i.e. factor
22806436/9122575) and is linear elsewhere. -/
def overclockUsageFactor (oc : ℚ) : ℚ :=
  if oc = 2 then 22806436 / 9122575 else oc

/-- Modelled from the spec: the Recipe Adjuster (spec section 4.4).
Step-by-step per the contract: aggregate effects (4.1); productivity
multiplier = aggregated productivity plus the additive global bonus (step 4);
cycle time = base time divided by machine speed, speed multiplier and
overclock factor, clamped at the minimum tick floor (step 5); consumption =
resolved usage (recipe override or machine usage) times consumption
multiplier times the overclock factor, with the non-linear curve for
positive usage and sign-preserving linear scaling otherwise (steps 6 and 8
of the spec's scenario list); drain passes through unchanged (step 7, per
the spec's fixtures); pollution = machine pollution rate normalized per tick
(divided by 60) times the consumption and pollution multipliers, as pinned
by the spec's concrete scenarios (step 8); outputs scale with productivity
while inputs do not (step 9); net-production reduction applies when enabled
(step 10).  The proliferator, fuel-resolution and game-variant branches
(steps 3, 11, 12) are not exercised by any claim settled here and are
omitted. -/
def adjustRecipe (recipe : SpecRecipe) (machine : SpecMachine)
    (settings : SpecSettings) (global : SpecGlobal) : SpecAdjusted :=
  let eff :=
    aggregateEffects settings.modules settings.beacons machine.disallowedEffects
  let ocFactor : ℚ :=
    match settings.overclock with
    | some pct => pct / 100
    | none => 1
  let productivity := eff.productivity + global.productivityBonus
  let rawTime := recipe.time / (machine.speed * eff.speed * ocFactor)
  let time := max rawTime global.minimumTime
  let usage := recipe.usage.getD machine.usage
  let usageOcFactor : ℚ :=
    match settings.overclock with
    | none => 1
    | some pct =>
      if 0 < usage then overclockUsageFactor (pct / 100) else pct / 100
  let consumption := usage * eff.consumption * usageOcFactor
  let pollution := machine.pollution / 60 * eff.consumption * eff.pollution
  let scaledOutputs : QMap := fun k => (recipe.outputs k).map (· * productivity)
  let maps :=
    if global.netProductionOnly then netReduce recipe.inputs scaledOutputs
    else (recipe.inputs, scaledOutputs)
  { inputs := maps.1
    outputs := maps.2
    time := time
    drain := machine.drain
    consumption := consumption
    pollution := pollution
    productivity := productivity }

/-! ## Fuel selector (spec section 4.3, modelled from the spec) -/

/-- Modelled from the spec: the Fuel Selector contract
`bestMatch(candidates, rankedPreferences)` (spec section 4.3) -- return the
first ranked id that also appears in the candidate list; if no ranked id
matches, return the first candidate.  A single-candidate list
short-circuits to that candidate regardless of ranking, which coincides
with the general rule for non-empty candidate lists. -/
def bestMatch (candidates ranked : List String) : Option String :=
  match ranked.find? (fun r => candidates.contains r) with
  | some r => some r
  | none => candidates.head?

/-! ## Silo / chained-recipe adjuster (spec section 4.5, modelled) -/

/-- Modelled from the spec: an already-adjusted recipe as seen by the silo
pass -- its optional "part" reference and its resolved cycle time (spec
sections 3 and 4.5). -/
structure SiloRecipe where
  part : Option String := none
  time : ℚ
deriving DecidableEq, Repr

/-- Modelled from the spec: the per-recipe settings consulted by the silo
pass -- the chosen machine id and the resolved machine count implied by the
settings for that recipe (spec section 4.5). -/
structure SiloSettings where
  machineId : Option String := none
  machineCount : ℚ := 1
deriving DecidableEq, Repr

/-- Modelled from the spec: the machine data consulted by the silo pass --
the fixed number of parts consumed to complete the parent launch-type
action (spec sections 3 and 4.5). -/
structure SiloMachine where
  partsRequired : ℚ
deriving DecidableEq, Repr

/-- Modelled from the spec: recompute a dependent recipe's time as
`partRecipeTime * partsRequired / partMachineCount` when the recipe carries
a part reference whose settings resolve a machine id present in the
dataset; skip silently (returning the time unchanged) when the recipe has
no part reference, no settings entry, no machine id (missing or empty), or
a machine id not present in the dataset (spec section 4.5). -/
def adjustLaunchRecipeObjective (recipe : SiloRecipe)
    (settings : String → Option SiloSettings)
    (adjusted : String → Option SiloRecipe)
    (machines : String → Option SiloMachine) : ℚ :=
  match recipe.part with
  | none => recipe.time
  | some partId =>
    match settings partId with
    | none => recipe.time
    | some st =>
      match st.machineId with
      | none => recipe.time
      | some machineId =>
        if machineId = "" then recipe.time
        else
          match machines machineId with
          | none => recipe.time
          | some machine =>
            match adjusted partId with
            | none => recipe.time
            | some partRecipe =>
              partRecipe.time * machine.partsRequired / st.machineCount

/-- Modelled from the spec: the silo pass over the whole adjusted-recipe
map, recomputing each dependent recipe's time via
`adjustLaunchRecipeObjective` (spec section 4.5). -/
def adjustSiloRecipes (adjusted : String → Option SiloRecipe)
    (settings : String → Option SiloSettings)
    (machines : String → Option SiloMachine) :
    String → Option SiloRecipe :=
  fun id =>
    (adjusted id).map fun r =>
      { r with time := adjustLaunchRecipeObjective r settings adjusted machines }

/-! ## Concrete fixtures (from the spec's stated scenarios) -/

/-- The reference fixture recipe: 8 steel plate in, 1 steel chest out, base
time 1/2 (the spec's concrete scenarios evaluate to base time 2/3 on the
reference machine). -/
def steelChest : SpecRecipe :=
  { inputs := fun k => if k = "steel-plate" then some 8 else none
    outputs := fun k => if k = "steel-chest" then some 1 else none
    time := 1 / 2 }

/-- The reference fixture machine: crafting speed 3/4, usage 150, drain 5,
pollution rate 3 per minute (baseline adjusted values per the spec's
scenarios: time 2/3, consumption 150, pollution 1/20). -/
def assemblingMachine2 : SpecMachine :=
  { speed := 3 / 4
    usage := 150
    drain := some 5
    pollution := 3 }

/-- Factorio-mode global settings: minimum tick floor 1/60, no bonuses, no
net-production restriction. -/
def factorioGlobal : SpecGlobal :=
  { minimumTime := 1 / 60 }

/-- The empty placeholder module (no effect on any channel). -/
def emptyModule : ModuleEff := {}

/-- The efficiency-module fixture of the floor-invariant scenario: a module
whose speed, consumption and pollution deltas are all -1/2, so that three
of them sum far below the 0.20 floor on every channel. -/
def efficiencyModule3AllChannels : ModuleEff :=
  { speed := some (-1 / 2)
    consumption := some (-1 / 2)
    pollution := some (-1 / 2) }

/-- Settings of the floor-invariant scenario: three efficiency modules on
the machine plus a zero-count beacon holding two empty modules. -/
def minimumEffectsSettings : SpecSettings :=
  { modules := [{ module := efficiencyModule3AllChannels, count := 3 }]
    beacons := [{ count := 0, effectivity := 1 / 2
                  modules := [{ module := emptyModule, count := 2 }] }] }

/-- Silo fixture: the adjusted-recipe map of the launch scenario.  The part
recipe ("rocket-part") has adjusted time 82499/66000; the dependent launch
recipe ("space-science-pack") references it and has pre-silo adjusted time
203/5. -/
def siloFixtureAdjusted : String → Option SiloRecipe := fun id =>
  if id = "rocket-part" then some { time := 82499 / 66000 }
  else if id = "space-science-pack" then
    some { part := some "rocket-part", time := 203 / 5 }
  else none

/-- Silo fixture: per-recipe settings.  The part recipe resolves the silo
machine and a resolved machine count of 7/5. -/
def siloFixtureSettings : String → Option SiloSettings := fun id =>
  if id = "rocket-part" then
    some { machineId := some "rocket-silo", machineCount := 7 / 5 }
  else if id = "space-science-pack" then
    some { machineId := some "rocket-silo", machineCount := 1 }
  else none

/-- Silo fixture: the dataset's machines; the silo consumes 100 parts per
launch. -/
def siloFixtureMachines : String → Option SiloMachine := fun id =>
  if id = "rocket-silo" then some { partsRequired := 100 } else none

/-! ## Items-state selector (embedded from
`src/app/store/items/items.selectors.ts`) -/

/-- Per-item settings (`ItemSettings`): the belt (or pipe) id and the wagon
id, each possibly unset. -/
structure ItemState where
  beltId : Option String := none
  wagonId : Option String := none
deriving DecidableEq, Repr

/-- The item fields read by the selector: its id and its optional stack
size (a JS `Rational | undefined`; the selector's `if (item.stack)` check
tests presence, since any object is truthy). -/
structure DataItem where
  id : String
  stack : Option ℚ := none
deriving DecidableEq

/-- The global settings fields read by the selector.  Their TypeScript
optionality is not visible in the provided sources (the `SettingsState`
type is external); all four are modelled as optional strings, matching the
selector's own truthiness guard on `pipeId` and the optional `ItemSettings`
fields the values are assigned into. -/
structure GlobalSettings where
  beltId : Option String := none
  pipeId : Option String := none
  cargoWagonId : Option String := none
  fluidWagonId : Option String := none
deriving DecidableEq, Repr

/-- JS truthiness of a `string | undefined` value: defined and non-empty. -/
def truthy : Option String → Bool
  | some s => s != ""
  | none => false

/-- The built-in `ItemId.Pipe` fallback id. -/
def pipeItemId : String := "pipe"

/-- The per-item body of `selectItemsState`: spread the stored entry (an
absent entry spreads to an empty object), then fill `beltId` -- stored value
if truthy, else the global belt id for stackable items, else for fluids the
global pipe id if truthy, else the built-in pipe id -- and fill `wagonId`
from the cargo or fluid wagon id by stackability. -/
def computeItemSettings (stored : Option ItemState) (item : DataItem)
    (settings : GlobalSettings) : ItemState :=
  let base := stored.getD {}
  let beltId :=
    if truthy base.beltId then base.beltId
    else if item.stack.isSome then settings.beltId
    else if truthy settings.pipeId then settings.pipeId
    else some pipeItemId
  let wagonId :=
    if truthy base.wagonId then base.wagonId
    else if item.stack.isSome then settings.cargoWagonId
    else settings.fluidWagonId
  { beltId := beltId, wagonId := wagonId }

/-- The `selectItemsState` projector: one computed entry per dataset item,
keyed by item id.  The source loop assigns `value[item.id]` in order, so a
duplicated id would keep the last assignment; the reverse-order first match
reproduces that. -/
def selectItemsState (state : String → Option ItemState)
    (items : List DataItem) (settings : GlobalSettings) :
    String → Option ItemState :=
  fun id =>
    (items.reverse.find? (fun item => item.id == id)).map
      (fun item => computeItemSettings (state item.id) item settings)

/-- Counterexample inputs: a dataset with one stackable item, no stored
per-item settings, and global settings that define a pipe but no belt. -/
def beltGapItems : List DataItem := [{ id := "iron-plate", stack := some 100 }]

/-- Counterexample global settings: `beltId` unset, `pipeId` set. -/
def beltGapSettings : GlobalSettings := { pipeId := some "pipe" }

/-! ## Migration service (embedded from `MigrationService` in the source)

The URL-parameter sections touched by the migrations.  The zip helper
service (`ZipService`), the separator constants, the static data tables and
the enum string values live outside the provided sources; they are taken as
an abstract `ZipSvc` parameter below, so every property proved about the
migrations holds for any behaviour of those helpers.  The control flow,
the touched sections and every write are translated from the source. -/

inductive ZipSection where
  | version
  | mod
  | settings
  | items
  | recipes
  | machines
  | beacons
  | recipeObjectives
  | objectives
  | modules
deriving DecidableEq, Repr

/-- The zip format versions dispatched by `migrateAny`. -/
inductive ZipVersion where
  | version0
  | version1
  | version2
  | version3
  | version4
  | version5
  | version6
  | version7
  | version8
  | version9
  | version10
deriving DecidableEq, Repr

/-- The string value stored in the version parameter for each version. -/
def ZipVersion.val : ZipVersion → String
  | .version0 => "0"
  | .version1 => "1"
  | .version2 => "2"
  | .version3 => "3"
  | .version4 => "4"
  | .version5 => "5"
  | .version6 => "6"
  | .version7 => "7"
  | .version8 => "8"
  | .version9 => "9"
  | .version10 => "10"

/-- The `Entities<string>` params object: section key to string value. -/
abbrev Params := ZipSection → Option String

/-- JS assignment `params[k] = v`. -/
def Params.set (p : Params) (k : ZipSection) (v : String) : Params :=
  fun k2 => if k2 = k then some v else p k2

/-- JS truthiness test `if (params[k])`: present and non-empty. -/
def Params.truthy (p : Params) (k : ZipSection) : Bool :=
  match p k with
  | some v => v != ""
  | none => false

/-- The `MigrationState` record threaded through the migrations. -/
structure MigrationState where
  params : Params
  warnings : List String
  isBare : Bool

/-- `MigrationWarning.ExpensiveDeprecation` (source text). -/
def expensiveDeprecation : String :=
  "The expensive setting has been removed. Please use or request an expensive data set instead."

/-- `MigrationWarning.LimitStepDeprecation` (source text). -/
def limitStepDeprecation : String :=
  "Limit steps have been replaced by limit objectives. Results may differ if using multiple objectives as limits apply to all objectives."

/-- Modelled from the spec: the zip helper service and its collaborators
(`ZipService`, the `Z*` separator constants, `data.modHash`,
`Settings.initialState.displayRate` and the `ObjectiveType` enum values)
are outside the provided sources, and the spec places the persistence/URL
layer out of scope; they are abstracted as this record of opaque-behaviour
functions, and the migration theorems are proved for every instantiation. -/
structure ZipSvc where
  fieldSep : String
  listSep : String
  arraySep : String
  znull : String
  zempty : String
  ztrue : String
  parseString : Option String → Option String
  parseNumber : Option String → Option Int
  parseBool : Option String → Bool
  parseNNumber : Option String → Option Nat
  parseArray : Option String → Option (List String)
  zipFields : List (Option String) → String
  zipTruthyString : Option String → String
  zipTruthyNats : Option (List Nat) → String
  zipDiffDisplayRate : Int → Int → String
  initialDisplayRate : Int
  modHashConvert : String → Option String
  objTypeLimit : String
  objTypeMaximize : String

/-- JS array assignment `arr[i] = v`: in-range assignment, or extension
with holes that serialize as empty strings. -/
def jsSet (l : List String) (i : Nat) (v : String) : List String :=
  if i < l.length then l.set i v
  else l ++ List.replicate (i - l.length) "" ++ [v]

/-- `migrateInsertField`: splice an empty field into every long-enough
entry of a list-valued section. -/
def migrateInsertField (svc : ZipSvc) (params : Params) (sec : ZipSection)
    (index : Nat) : Params :=
  if params.truthy sec then
    let list := ((params sec).getD "").splitOn svc.listSep
    let migrated := list.map fun entry =>
      let o := entry.splitOn svc.fieldSep
      if index < o.length then svc.zipFields ((o.insertIdx index "").map some)
      else entry
    params.set sec (String.intercalate svc.listSep migrated)
  else params

/-- `migrateDeleteField`: splice a field out of every long-enough entry of
a list-valued section. -/
def migrateDeleteField (svc : ZipSvc) (params : Params) (sec : ZipSection)
    (index : Nat) : Params :=
  if params.truthy sec then
    let list := ((params sec).getD "").splitOn svc.listSep
    let migrated := list.map fun entry =>
      let o := entry.splitOn svc.fieldSep
      if index < o.length then svc.zipFields ((o.eraseIdx index).map some)
      else entry
    params.set sec (String.intercalate svc.listSep migrated)
  else params

/-- `migrateMoveUpField`: move the field at `i` to position `j`, inserting
an empty spacer and padding with empty fields as the source does. -/
def migrateMoveUpField (fields : List String) (i j : Nat) : List String :=
  if i < fields.length then
    let value := fields.getD i ""
    let fields1 := fields.eraseIdx i
    let fields2 := if j < fields1.length then fields1.insertIdx j "" else fields1
    let fields3 := fields2 ++ List.replicate (j + 1 - fields2.length) ""
    fields3.set j value
  else fields

/-- `migrateInlineModulesSection`: convert an inline module-id array field
into indices into the shared modules list, counting repetitions in
first-occurrence order; an entry whose module field fails to parse is
dropped (the source `continue`s before pushing it). -/
def migrateInlineModulesSection (svc : ZipSvc) (params : Params)
    (sec : ZipSection) (index : Nat) (modules : List String) :
    Params × List String :=
  if params.truthy sec then
    let list := (((params sec).getD "").splitOn svc.listSep).map
      fun z => z.splitOn svc.fieldSep
    let res := list.foldl
      (fun acc s =>
        let migrated := acc.1
        let modules := acc.2
        if index < s.length then
          let moduleIdsStr := s.getD index ""
          match svc.parseArray (some moduleIdsStr) with
          | none => (migrated, modules)
          | some moduleIds =>
            let moduleMap := moduleIds.foldl
              (fun m id =>
                match m.find? (fun e => e.1 == id) with
                | some _ => m.map fun e => if e.1 == id then (e.1, e.2 + 1) else e
                | none => m ++ [(id, 1)])
              ([] : List (String × Nat))
            let moduleIndices :=
              (List.range moduleMap.length).map fun i => modules.length + i
            let s2 := s.set index (svc.zipTruthyNats (some moduleIndices))
            let modules2 := modules ++ moduleMap.map
              fun e => svc.zipFields [some (toString e.2), some e.1]
            (migrated ++ [svc.zipFields (s2.map some)], modules2)
        else (migrated ++ [svc.zipFields (s.map some)], modules))
      ([], modules)
    (params.set sec (String.intercalate svc.listSep res.1), res.2)
  else (params, modules)

/-- `migrateV9`: convert inline modules in beacons/recipes/objectives,
migrate the machines section (default-row normalization, module-rank and
beacon-property conversion), collect shared module and beacon settings,
move `fuelRankIds` from settings into the machines section, and stamp
Version10. -/
def migrateV9 (svc : ZipSvc) (state : MigrationState) : MigrationState :=
  let r1 := migrateInlineModulesSection svc state.params .beacons 1 []
  let r2 := migrateInlineModulesSection svc r1.1 .recipes 3 r1.2
  let r3 := migrateInlineModulesSection svc r2.1 .objectives 5 r2.2
  let params3 := r3.1
  let modules0 := r3.2
  let machinesRes : Params × List String :=
    if params3.truthy .machines then
      let list := ((params3 .machines).getD "").splitOn svc.listSep
      let beacons0 :=
        if params3.truthy .beacons then
          ((params3 .beacons).getD "").splitOn svc.listSep
        else []
      let countIndex := 2
      let moduleIdsIndex := countIndex + 1
      let idIndex := moduleIdsIndex + 1
      let res := (list.map fun z => z.splitOn svc.fieldSep).enum.foldl
        (fun acc pair =>
          let i := pair.1
          let s := pair.2
          let migrated := acc.1
          let beacons := acc.2.1
          let modules := acc.2.2
          let s := if i == 0 && s.getD 0 "" == svc.ztrue then
              s.set 0 svc.zempty
            else s
          let s := migrateMoveUpField s 5 6
          let sm : List String × List String :=
            if s.getD 0 "" != svc.zempty && s.getD 0 "" != "" then
              if 1 < s.length then
                let moduleIdsStr := s.getD 1 ""
                if moduleIdsStr != "" then
                  let moduleId := (moduleIdsStr.splitOn svc.arraySep).headI
                  (s.set 1 (svc.zipTruthyNats (some [modules.length])),
                   modules ++ [svc.zipFields [some "", some moduleId]])
                else (s, modules)
              else (s, modules)
            else (s, modules)
          let s := sm.1
          let modules := sm.2
          let sbm : List String × List String × List String :=
            if 2 < s.length then
              let ids : Option String × List String :=
                if idIndex < s.length then
                  (some (s.getD idIndex ""), s.eraseIdx idIndex)
                else (none, s)
              let id := ids.1
              let s := ids.2
              let msm : Option (List Nat) × List String × List String :=
                if moduleIdsIndex < s.length then
                  let moduleIdsStr := s.getD moduleIdsIndex ""
                  let s := s.eraseIdx moduleIdsIndex
                  if moduleIdsStr != "" then
                    let moduleId := (moduleIdsStr.splitOn svc.arraySep).headI
                    (some [modules.length], s,
                     modules ++ [svc.zipFields [some "", some moduleId]])
                  else (none, s, modules)
                else (none, s, modules)
              let moduleIndices := msm.1
              let s := msm.2.1
              let modules := msm.2.2
              let count := s.getD countIndex ""
              let s := s.set countIndex (svc.zipTruthyNats (some [beacons.length]))
              let beacons := beacons ++
                [svc.zipFields [some count, some (svc.zipTruthyNats moduleIndices),
                  some (svc.zipTruthyString id)]]
              (s, beacons, modules)
            else (s, beacons, modules)
          let s := sbm.1
          let beacons := sbm.2.1
          let modules := sbm.2.2
          (migrated ++ [svc.zipFields (s.map some)], beacons, modules))
        ([], beacons0, modules0)
      let migrated := res.1
      let beacons := res.2.1
      let modules := res.2.2
      let params3b :=
        if beacons.length ≠ 0 then
          params3.set .beacons (String.intercalate svc.listSep beacons)
        else params3
      (params3b.set .machines (String.intercalate svc.listSep migrated), modules)
    else (params3, modules0)
  let params4 := machinesRes.1
  let modulesF := machinesRes.2
  let params5 :=
    if modulesF.length ≠ 0 then
      params4.set .modules (String.intercalate svc.listSep modulesF)
    else params4
  let params6 :=
    if params5.truthy .settings then
      let s := ((params5 .settings).getD "").splitOn svc.fieldSep
      let index := if state.isBare then 5 else 4
      if index < s.length then
        let fuelRankIds := s.getD index ""
        let s2 := s.eraseIdx index
        let params5b :=
          if params5.truthy .machines then
            let list := (((params5 .machines).getD "").splitOn svc.listSep).map
              fun l => l.splitOn svc.fieldSep
            let list2 :=
              match list.findIdx? (fun l => l.headI == svc.zempty || l.headI == "") with
              | some i =>
                let row := list.getD i []
                let row2 := row ++ List.replicate (4 - row.length) ""
                list.set i (row2.set 3 fuelRankIds)
              | none => ["", "", "", fuelRankIds] :: list
            params5.set .machines (String.intercalate svc.listSep
              (list2.map fun l => svc.zipFields (l.map some)))
          else
            params5.set .machines (String.intercalate svc.fieldSep
              ["", "", "", fuelRankIds])
        params5b.set .settings (String.intercalate svc.fieldSep s2)
      else params5
    else params5
  let params7 := params6.set .version ZipVersion.version10.val
  { state with params := params7 }

/-- `migrateV8`: fold the legacy recipe-objectives section into the unified
objectives section, then run `migrateV9`. -/
def migrateV8 (svc : ZipSvc) (state : MigrationState) : MigrationState :=
  let params := state.params
  let state2 :=
    if params.truthy .recipeObjectives then
      let objectives0 :=
        if params.truthy .objectives then
          ((params .objectives).getD "").splitOn svc.listSep
        else []
      let list := ((params .recipeObjectives).getD "").splitOn svc.listSep
      let objectives := objectives0 ++ list.map fun z =>
        let o := z.splitOn svc.fieldSep
        svc.zipFields [o.get? 0, o.get? 1, some "3", o.get? 2, o.get? 3,
          o.get? 4, o.get? 5, o.get? 6, o.get? 7]
      let params2 := (params.set .recipeObjectives "").set .objectives
        (String.intercalate svc.listSep objectives)
      { state with params := params2 }
    else state
  migrateV9 svc state2

/-- `migrateToV8`: the shared V6/V7 step -- insert the objective type
field, convert machine-rate and limit-step objectives (with the limit
deprecation warning), drop the items recipeId field, insert the recipes
excluded field, rebuild the settings section (disabled recipe ids move into
the recipes section, researchedTechnologyIds is inserted, the cost fields
move up), and stamp Version8.  The source additionally triggers the
deferred `fixV8ExcludedRecipes` subject, a store side effect with no
bearing on the params. -/
def migrateToV8 (svc : ZipSvc) (state : MigrationState) : MigrationState :=
  let isBare := state.isBare
  let params1 := migrateInsertField svc state.params .recipeObjectives 2
  let objRes : Params × List String :=
    if params1.truthy .objectives then
      let list := ((params1 .objectives).getD "").splitOn svc.listSep
      let res := list.enum.foldl
        (fun acc pair =>
          let i := pair.1
          let obj := pair.2
          let migrated := acc.1
          let params := acc.2.1
          let needsWarning := acc.2.2
          let o := obj.splitOn svc.fieldSep
          if o.getD 2 "" == "3" then
            if isBare then
              let recipes0 :=
                if params.truthy .recipeObjectives then
                  ((params .recipeObjectives).getD "").splitOn svc.listSep
                else []
              let rw : List String × Bool :=
                if 3 < o.length then
                  (recipes0 ++
                    [svc.zipFields [o.get? 0, some "1", some svc.objTypeMaximize],
                     svc.zipFields [o.get? 3, o.get? 1, some svc.objTypeLimit]],
                   true)
                else (recipes0 ++ [svc.zipFields [o.get? 0, o.get? 1]],
                  needsWarning)
              (migrated.eraseIdx i,
               params.set .recipeObjectives
                 (String.intercalate svc.listSep rw.1),
               rw.2)
            else
              (jsSet migrated i (svc.zipFields ((jsSet o 2 "0").map some)),
               params, needsWarning)
          else
            if 3 < o.length then
              let limit := svc.zipFields
                [o.get? 3, o.get? 1, o.get? 2, some svc.objTypeLimit]
              let maximize := svc.zipFields
                [o.get? 0, some "1", some "", some svc.objTypeMaximize]
              (jsSet migrated i maximize ++ [limit], params, true)
            else (migrated, params, needsWarning))
        (list, params1, false)
      let paramsF := res.2.1
      let warningsF :=
        if res.2.2 then state.warnings ++ [limitStepDeprecation]
        else state.warnings
      (paramsF.set .objectives (String.intercalate svc.listSep res.1),
       warningsF)
    else (params1, state.warnings)
  let params2 := objRes.1
  let warnings2 := objRes.2
  let params3 := migrateDeleteField svc params2 .items 4
  let params4 := migrateInsertField svc params3 .recipes 1
  let params5 :=
    if params4.truthy .settings then
      let s := ((params4 .settings).getD "").splitOn svc.fieldSep
      let x := if isBare then 1 else 0
      let sp : List String × Params :=
        if 2 + x < s.length then
          let params4b :=
            match svc.parseArray (s.get? (2 + x)) with
            | none => params4
            | some disabledRecipeIds =>
              let list0 :=
                if params4.truthy .recipes then
                  ((params4 .recipes).getD "").splitOn svc.listSep
                else []
              let listF := disabledRecipeIds.foldl
                (fun list id =>
                  let found := list.any
                    fun entry => (entry.splitOn svc.fieldSep).headI == id
                  let list2 := list.map fun entry =>
                    let r := entry.splitOn svc.fieldSep
                    if r.headI == id then
                      svc.zipFields ((jsSet r 1 svc.ztrue).map some)
                    else entry
                  if found then list2
                  else list2 ++ [svc.zipFields [some id, some svc.ztrue]])
                list0
              params4.set .recipes (String.intercalate svc.listSep listF)
          (s.eraseIdx (2 + x), params4b)
        else (s, params4)
      let s1 := sp.1
      let params4c := sp.2
      let s2 := s1.insertIdx x ""
      let s3 := migrateMoveUpField s2 (16 + x) (20 + x)
      let s4 := migrateMoveUpField s3 (15 + x) (19 + x)
      let s5 := migrateMoveUpField s4 (14 + x) (18 + x)
      let s6 := migrateMoveUpField s5 (13 + x) (17 + x)
      params4c.set .settings (svc.zipFields (s6.map some))
    else params4
  let params6 := params5.set .version ZipVersion.version8.val
  { params := params6, warnings := warnings2, isBare := isBare }

/-- `migrateV6`: mark the state bare, run the shared V8 conversion, then
`migrateV8`. -/
def migrateV6 (svc : ZipSvc) (state : MigrationState) : MigrationState :=
  migrateV8 svc (migrateToV8 svc { state with isBare := true })

/-- `migrateV7`: mark the state hashed, run the shared V8 conversion, then
`migrateV8`. -/
def migrateV7 (svc : ZipSvc) (state : MigrationState) : MigrationState :=
  migrateV8 svc (migrateToV8 svc { state with isBare := false })

/-- `migrateInlineBeaconsSection`: convert inline beacon fields (count,
modules, id, total) of a list-valued section into indices into the shared
beacons list. -/
def migrateInlineBeaconsSection (svc : ZipSvc) (params : Params)
    (sec : ZipSection) (countIndex : Nat) (beacons : List String) :
    Params × List String :=
  if params.truthy sec then
    let list := (((params sec).getD "").splitOn svc.listSep).map
      fun z => z.splitOn svc.fieldSep
    let res := list.foldl
      (fun acc s =>
        let migrated := acc.1
        let beacons := acc.2
        let moduleIdsIndex := countIndex + 1
        let idIndex := moduleIdsIndex + 1
        let totalIndex := idIndex + 3
        if countIndex < s.length then
          let ts : Option String × List String :=
            if totalIndex < s.length then
              (some (s.getD totalIndex ""), s.eraseIdx totalIndex)
            else (none, s)
          let total := ts.1
          let s := ts.2
          let is2 : Option String × List String :=
            if idIndex < s.length then
              (some (s.getD idIndex ""), s.eraseIdx idIndex)
            else (none, s)
          let id := is2.1
          let s := is2.2
          let ms : Option String × List String :=
            if moduleIdsIndex < s.length then
              (some (s.getD moduleIdsIndex ""), s.eraseIdx moduleIdsIndex)
            else (none, s)
          let moduleIds := ms.1
          let s := ms.2
          let count := s.getD countIndex ""
          let s := s.set countIndex (svc.zipTruthyNats (some [beacons.length]))
          let beacons2 := beacons ++
            [svc.zipFields [some count, some (svc.zipTruthyString moduleIds),
              some (svc.zipTruthyString id), some (svc.zipTruthyString total)]]
          (migrated ++ [svc.zipFields (s.map some)], beacons2)
        else (migrated ++ [svc.zipFields (s.map some)], beacons))
      ([], beacons)
    (params.set sec (String.intercalate svc.listSep res.1), res.2)
  else (params, beacons)

/-- `migrateInlineBeacons`: run the inline-beacon conversion over the
recipe-objectives and recipes sections and store the collected beacon
settings. -/
def migrateInlineBeacons (svc : ZipSvc) (state : MigrationState) :
    MigrationState :=
  let r1 := migrateInlineBeaconsSection svc state.params .recipeObjectives 4 []
  let r2 := migrateInlineBeaconsSection svc r1.1 .recipes 3 r1.2
  let params2 :=
    if r2.2.length ≠ 0 then
      r2.1.set .beacons (String.intercalate svc.listSep r2.2)
    else r2.1
  { state with params := params2 }

/-- `migrateV4`: inline-beacon conversion, stamp Version6, continue with
`migrateV6`. -/
def migrateV4 (svc : ZipSvc) (state : MigrationState) : MigrationState :=
  let state2 := migrateInlineBeacons svc state
  migrateV6 svc
    { state2 with params := state2.params.set .version ZipVersion.version6.val }

/-- `migrateV5`: inline-beacon conversion, stamp Version7, continue with
`migrateV7`. -/
def migrateV5 (svc : ZipSvc) (state : MigrationState) : MigrationState :=
  let state2 := migrateInlineBeacons svc state
  migrateV7 svc
    { state2 with params := state2.params.set .version ZipVersion.version7.val }

/-- `migrateV3`: remove the expensive field (index 10) from the settings
section with its deprecation warning, stamp Version5, continue with
`migrateV5`. -/
def migrateV3 (svc : ZipSvc) (state : MigrationState) : MigrationState :=
  let params := state.params
  let pw : Params × List String :=
    if params.truthy .settings then
      let s := ((params .settings).getD "").splitOn svc.fieldSep
      let sw : List String × List String :=
        if 10 < s.length then
          let val := s.getD 10 ""
          (s.eraseIdx 10,
           if svc.parseBool (some val) then
             state.warnings ++ [expensiveDeprecation]
           else state.warnings)
        else (s, state.warnings)
      (params.set .settings (svc.zipFields (sw.1.map some)), sw.2)
    else (params, state.warnings)
  let params2 := pw.1.set .version ZipVersion.version5.val
  migrateV5 svc { params := params2, warnings := pw.2, isBare := state.isBare }

/-- `migrateV2`: convert the beaconCount fields of the recipes (index 3)
and machines (index 2) sections from number to string format, stamp
Version3, continue with `migrateV3`. -/
def migrateV2 (svc : ZipSvc) (state : MigrationState) : MigrationState :=
  let params := state.params
  let params1 :=
    if params.truthy .recipes then
      let list := ((params .recipes).getD "").splitOn svc.listSep
      let migrated := list.map fun recipe =>
        let s := recipe.splitOn svc.fieldSep
        if 3 < s.length then
          let asString := (svc.parseNNumber (s.get? 3)).map toString
          svc.zipFields ((s.set 3 (svc.zipTruthyString asString)).map some)
        else svc.zipFields (s.map some)
      params.set .recipes (String.intercalate svc.listSep migrated)
    else params
  let params2 :=
    if params1.truthy .machines then
      let list := ((params1 .machines).getD "").splitOn svc.listSep
      let migrated := list.map fun machine =>
        let s := machine.splitOn svc.fieldSep
        if 2 < s.length then
          let asString := (svc.parseNNumber (s.get? 2)).map toString
          svc.zipFields ((s.set 2 (svc.zipTruthyString asString)).map some)
        else svc.zipFields (s.map some)
      params1.set .machines (String.intercalate svc.listSep migrated)
    else params1
  let params3 := params2.set .version ZipVersion.version3.val
  migrateV3 svc { state with params := params3 }

/-- `migrateV1`: remove the expensive field (index 11) from the settings
section with its deprecation warning, stamp Version4, continue with
`migrateV4`. -/
def migrateV1 (svc : ZipSvc) (state : MigrationState) : MigrationState :=
  let params := state.params
  let pw : Params × List String :=
    if params.truthy .settings then
      let s := ((params .settings).getD "").splitOn svc.fieldSep
      let sw : List String × List String :=
        if 11 < s.length then
          let val := s.getD 11 ""
          (s.eraseIdx 11,
           if svc.parseBool (some val) then
             state.warnings ++ [expensiveDeprecation]
           else state.warnings)
        else (s, state.warnings)
      (params.set .settings (svc.zipFields (sw.1.map some)), sw.2)
    else (params, state.warnings)
  let params2 := pw.1.set .version ZipVersion.version4.val
  migrateV4 svc { params := params2, warnings := pw.2, isBare := state.isBare }

/-- `migrateV0`: reorganize the settings section (modId conversion through
the mod-hash table, display-rate conversion, field reordering) or
synthesize one from the legacy mod preset, stamp Version1, continue with
`migrateV1`. -/
def migrateV0 (svc : ZipSvc) (state : MigrationState) : MigrationState :=
  let params := state.params
  let params1 :=
    if params.truthy .settings then
      let s := ((params .settings).getD "").splitOn svc.fieldSep
      let modId0 := svc.parseString (s.get? 0)
      let modId1 : Option String :=
        match modId0 with
        | none => none
        | some m => if m = "" then some "" else svc.modHashConvert m
      let modId := modId1.getD svc.znull
      let displayRateV0 :=
        (svc.parseNumber (s.get? 6)).getD svc.initialDisplayRate
      let displayRateV1 :=
        svc.zipDiffDisplayRate displayRateV0 svc.initialDisplayRate
      params.set .settings (svc.zipFields
        [some modId, some displayRateV1, params .mod, s.get? 1, s.get? 3,
         s.get? 4, s.get? 5, s.get? 7, s.get? 8, s.get? 10, s.get? 9,
         s.get? 2, s.get? 11, s.get? 12])
    else if params.truthy .mod then
      params.set .settings
        (svc.zipFields [some svc.znull, some svc.znull, params .mod])
    else params
  let params2 := params1.set .version ZipVersion.version1.val
  migrateV1 svc { state with params := params2 }

/-- `migrateAny`: dispatch on the version tag; each per-version migration
chains forward, and an already-latest tag returns the params unchanged with
no warnings. -/
def migrateAny (svc : ZipSvc) (params : Params) (isBare : Bool)
    (v : ZipVersion) : MigrationState :=
  let state : MigrationState :=
    { params := params, warnings := [], isBare := isBare }
  match v with
  | .version0 => migrateV0 svc state
  | .version1 => migrateV1 svc state
  | .version2 => migrateV2 svc state
  | .version3 => migrateV3 svc state
  | .version4 => migrateV4 svc state
  | .version5 => migrateV5 svc state
  | .version6 => migrateV6 svc state
  | .version7 => migrateV7 svc state
  | .version8 => migrateV8 svc state
  | .version9 => migrateV9 svc state
  | .version10 => { params := params, warnings := [], isBare := isBare }

/-- A trivial instantiation of the abstract zip helpers, used to witness
the migration theorem at a concrete input. -/
def trivialZipSvc : ZipSvc :=
  { fieldSep := "*"
    listSep := "_"
    arraySep := "~"
    znull := "?"
    zempty := "="
    ztrue := "1"
    parseString := fun _ => none
    parseNumber := fun _ => none
    parseBool := fun _ => false
    parseNNumber := fun _ => none
    parseArray := fun _ => none
    zipFields := fun _ => ""
    zipTruthyString := fun _ => ""
    zipTruthyNats := fun _ => ""
    zipDiffDisplayRate := fun _ _ => ""
    initialDisplayRate := 0
    modHashConvert := fun _ => none
    objTypeLimit := "2"
    objTypeMaximize := "3" }

end FactorioLab

namespace FactorioLab

/-! ## Theorems -/

/-- Unfolding lemma: the consumption computed by the recipe adjuster. -/
theorem adjustRecipe_consumption (r : SpecRecipe) (m : SpecMachine)
    (s : SpecSettings) (g : SpecGlobal) :
    (adjustRecipe r m s g).consumption =
      r.usage.getD m.usage *
        (aggregateEffects s.modules s.beacons m.disallowedEffects).consumption *
        (match s.overclock with
          | none => (1 : ℚ)
          | some pct =>
            if 0 < r.usage.getD m.usage then overclockUsageFactor (pct / 100)
            else pct / 100) := rfl

/-- C1: for every module/beacon configuration, each aggregated
effect-channel multiplier (speed, consumption, pollution) is at least the
0.20 floor; in the floor scenario (three efficiency modules whose deltas
sum to -3/2 on each of those channels, plus a zero-count beacon) every
channel clamps to exactly 0.20, and the adjusted recipe's time, consumption
and pollution equal the floor-clamped values 10/3, 30 and 1/500. -/
theorem effectFloorInvariant :
    (∀ (modules : List ModuleEntry) (beacons : List BeaconConfig)
        (disallowed : List EffectChannel),
      EFFECT_FLOOR ≤ (aggregateEffects modules beacons disallowed).speed ∧
      EFFECT_FLOOR ≤ (aggregateEffects modules beacons disallowed).consumption ∧
      EFFECT_FLOOR ≤ (aggregateEffects modules beacons disallowed).pollution) ∧
    channelSum .speed minimumEffectsSettings.modules
      minimumEffectsSettings.beacons [] = -(3 / 2) ∧
    channelSum .consumption minimumEffectsSettings.modules
      minimumEffectsSettings.beacons [] = -(3 / 2) ∧
    channelSum .pollution minimumEffectsSettings.modules
      minimumEffectsSettings.beacons [] = -(3 / 2) ∧
    (aggregateEffects minimumEffectsSettings.modules
      minimumEffectsSettings.beacons []).speed = EFFECT_FLOOR ∧
    (aggregateEffects minimumEffectsSettings.modules
      minimumEffectsSettings.beacons []).consumption = EFFECT_FLOOR ∧
    (aggregateEffects minimumEffectsSettings.modules
      minimumEffectsSettings.beacons []).pollution = EFFECT_FLOOR ∧
    (adjustRecipe steelChest assemblingMachine2 minimumEffectsSettings
      factorioGlobal).time = 10 / 3 ∧
    (adjustRecipe steelChest assemblingMachine2 minimumEffectsSettings
      factorioGlobal).consumption = 30 ∧
    (adjustRecipe steelChest assemblingMachine2 minimumEffectsSettings
      factorioGlobal).pollution = 1 / 500 := by
  refine ⟨fun modules beacons disallowed =>
    ⟨le_max_left _ _, le_max_left _ _, le_max_left _ _⟩, ?_⟩
  norm_num [adjustRecipe, aggregateEffects, channelSum, effectMultiplier,
    EFFECT_FLOOR, steelChest, assemblingMachine2, factorioGlobal,
    minimumEffectsSettings, efficiencyModule3AllChannels, emptyModule,
    ModuleEff.get, max_def]

/-- C2: the adjusted cycle time never falls below the configured minimum
tick floor, and a recipe with base time 1/10000 in Factorio mode (floor
1/60) is clamped to exactly 1/60. -/
theorem minimumTimeFloor :
    (∀ (recipe : SpecRecipe) (machine : SpecMachine) (settings : SpecSettings)
        (global : SpecGlobal),
      global.minimumTime ≤ (adjustRecipe recipe machine settings global).time) ∧
    (adjustRecipe { steelChest with time := 1 / 10000 } assemblingMachine2
      ({} : SpecSettings) factorioGlobal).time = 1 / 60 := by
  refine ⟨fun recipe machine settings global => le_max_right _ _, ?_⟩
  norm_num [adjustRecipe, aggregateEffects, channelSum, effectMultiplier,
    EFFECT_FLOOR, steelChest, assemblingMachine2, factorioGlobal, max_def]

/-- C3: net-production reduction trichotomy -- an item with input quantity
`a` and output quantity `b` keeps input `a-b` and no output when `a>b`,
keeps output `b-a` and no input when `b>a`, and appears in neither map when
`a=b`; under net-production mode `adjustRecipe` applies exactly this
reduction to the recipe's inputs and productivity-scaled outputs. -/
theorem netProductionReduction :
    (∀ (inputs outputs : QMap) (k : String) (a b : ℚ),
        inputs k = some a → outputs k = some b →
        (b < a → (netReduce inputs outputs).1 k = some (a - b) ∧
          (netReduce inputs outputs).2 k = none) ∧
        (a < b → (netReduce inputs outputs).1 k = none ∧
          (netReduce inputs outputs).2 k = some (b - a)) ∧
        (a = b → (netReduce inputs outputs).1 k = none ∧
          (netReduce inputs outputs).2 k = none)) ∧
    (∀ (recipe : SpecRecipe) (machine : SpecMachine) (settings : SpecSettings)
        (global : SpecGlobal), global.netProductionOnly = true →
      (adjustRecipe recipe machine settings global).inputs =
        (netReduce recipe.inputs (fun k => (recipe.outputs k).map
          (· * (adjustRecipe recipe machine settings global).productivity))).1 ∧
      (adjustRecipe recipe machine settings global).outputs =
        (netReduce recipe.inputs (fun k => (recipe.outputs k).map
          (· * (adjustRecipe recipe machine settings global).productivity))).2) := by
  constructor
  · intro inputs outputs k a b hin hout
    refine ⟨fun hba => ?_, fun hab => ?_, fun heq => ?_⟩
    · constructor <;> simp [netReduce, hin, hout, hba, lt_asymm hba]
    · constructor <;> simp [netReduce, hin, hout, hab, lt_asymm hab]
    · subst heq
      constructor <;> simp [netReduce, hin, hout, lt_irrefl]
  · intro recipe machine settings global h
    constructor <;> simp [adjustRecipe, h]

/-- C3 witness: the reduction applied to the heavy-oil scenario (input 1,
output 2) drops the item from the inputs and leaves output 1. -/
theorem netProductionReductionApplied :
    ((1 : ℚ) < 2) ∧
    (netReduce (fun k => if k = "heavy-oil" then some 1 else none)
      (fun k => if k = "heavy-oil" then some 2 else none)).1 "heavy-oil" =
        none ∧
    (netReduce (fun k => if k = "heavy-oil" then some 1 else none)
      (fun k => if k = "heavy-oil" then some 2 else none)).2 "heavy-oil" =
        some 1 := by
  have h := (netProductionReduction.1
    (fun k => if k = "heavy-oil" then some 1 else none)
    (fun k => if k = "heavy-oil" then some 2 else none)
    "heavy-oil" 1 2 (by simp) (by simp)).2.1 (by norm_num)
  rw [show ((2 : ℚ) - 1) = 1 from by norm_num] at h
  exact ⟨by norm_num, h.1, h.2⟩

/-- C4: overclocking the reference fixture to 200% halves the cycle time
(2/3 to 1/3) while consumption follows the machine-specific non-linear
curve to exactly 136838616/364903, which differs from linear doubling of
the 150 baseline. -/
theorem overclockFixture :
    (adjustRecipe steelChest assemblingMachine2 ({} : SpecSettings)
      factorioGlobal).time = 2 / 3 ∧
    (adjustRecipe steelChest assemblingMachine2 { overclock := some 200 }
      factorioGlobal).time = 1 / 3 ∧
    (adjustRecipe steelChest assemblingMachine2 { overclock := some 200 }
        factorioGlobal).time =
      (adjustRecipe steelChest assemblingMachine2 ({} : SpecSettings)
        factorioGlobal).time / 2 ∧
    (adjustRecipe steelChest assemblingMachine2 ({} : SpecSettings)
      factorioGlobal).consumption = 150 ∧
    (adjustRecipe steelChest assemblingMachine2 { overclock := some 200 }
      factorioGlobal).consumption = 136838616 / 364903 ∧
    (adjustRecipe steelChest assemblingMachine2 { overclock := some 200 }
        factorioGlobal).consumption ≠
      2 * (adjustRecipe steelChest assemblingMachine2 ({} : SpecSettings)
        factorioGlobal).consumption := by
  norm_num [adjustRecipe, aggregateEffects, channelSum, effectMultiplier,
    EFFECT_FLOOR, overclockUsageFactor, steelChest, assemblingMachine2,
    factorioGlobal, max_def]

/-- C5: `bestMatch` returns the first ranked id that also appears in the
candidate list; with no ranked match it returns the first candidate (and
does return one whenever the candidate list is non-empty); a
single-candidate list yields that candidate regardless of ranking; and the
two contract examples hold. -/
theorem bestMatchContract :
    (∀ (candidates ranked : List String) (r : String),
        ranked.find? (fun x => candidates.contains x) = some r →
        bestMatch candidates ranked = some r) ∧
    (∀ (candidates ranked : List String), candidates ≠ [] →
        ranked.find? (fun x => candidates.contains x) = none →
        bestMatch candidates ranked = candidates.head? ∧
        (bestMatch candidates ranked).isSome = true) ∧
    (∀ (v : String) (ranked : List String), bestMatch [v] ranked = some v) ∧
    bestMatch ["value"] [] = some "value" ∧
    bestMatch ["test1", "value"] ["test2", "value"] = some "value" := by
  refine ⟨?_, ?_, ?_, by decide, by decide⟩
  · intro candidates ranked r h
    unfold bestMatch
    rw [h]
  · intro candidates ranked hne h
    have h1 : bestMatch candidates ranked = candidates.head? := by
      unfold bestMatch
      rw [h]
    refine ⟨h1, ?_⟩
    rw [h1]
    cases candidates with
    | nil => exact absurd rfl hne
    | cons c t => simp
  · intro v ranked
    unfold bestMatch
    cases h : ranked.find? (fun x => [v].contains x) with
    | none => simp
    | some r =>
      have hr := List.find?_some h
      simp only [List.contains_cons, List.contains_nil, Bool.or_false,
        beq_iff_eq] at hr
      simp [hr]

/-- C5 witness: with no ranked match the selector falls back to the first
candidate. -/
theorem bestMatchContractApplied :
    bestMatch ["a", "b"] ["c"] = (["a", "b"] : List String).head? ∧
    (bestMatch ["a", "b"] ["c"]).isSome = true :=
  bestMatchContract.2.1 ["a", "b"] ["c"] (by decide) (by decide)

/-- C6: when a recipe carries a part reference whose settings resolve a
non-empty machine id present in the dataset and the part recipe has an
adjusted entry, the silo pass recomputes the dependent recipe's time to
`partRecipeTime * partsRequired / partMachineCount`; `adjustSiloRecipes`
applies this per-recipe rule across the map; on the launch fixture the
dependent recipe's time becomes 82499/924 while the part recipe itself
keeps 82499/66000. -/
theorem siloRecipeTimeFormula :
    (∀ (recipe : SiloRecipe) (settings : String → Option SiloSettings)
        (adjusted : String → Option SiloRecipe)
        (machines : String → Option SiloMachine)
        (partId machineId : String) (st : SiloSettings) (m : SiloMachine)
        (partRecipe : SiloRecipe),
        recipe.part = some partId → settings partId = some st →
        st.machineId = some machineId → machineId ≠ "" →
        machines machineId = some m → adjusted partId = some partRecipe →
        adjustLaunchRecipeObjective recipe settings adjusted machines =
          partRecipe.time * m.partsRequired / st.machineCount) ∧
    (∀ (settings : String → Option SiloSettings)
        (adjusted : String → Option SiloRecipe)
        (machines : String → Option SiloMachine) (id : String) (r : SiloRecipe),
        adjusted id = some r →
        adjustSiloRecipes adjusted settings machines id =
          some { r with
            time := adjustLaunchRecipeObjective r settings adjusted machines }) ∧
    (adjustSiloRecipes siloFixtureAdjusted siloFixtureSettings
        siloFixtureMachines "space-science-pack").map SiloRecipe.time =
      some (82499 / 924) ∧
    (adjustSiloRecipes siloFixtureAdjusted siloFixtureSettings
        siloFixtureMachines "rocket-part").map SiloRecipe.time =
      some (82499 / 66000) := by
  refine ⟨?_, ?_, ?_, ?_⟩
  · intro recipe settings adjusted machines partId machineId st m partRecipe
      h1 h2 h3 h4 h5 h6
    simp [adjustLaunchRecipeObjective, h1, h2, h3, h4, h5, h6]
  · intro settings adjusted machines id r h
    simp [adjustSiloRecipes, h]
  · simp [adjustSiloRecipes, adjustLaunchRecipeObjective,
      siloFixtureAdjusted, siloFixtureSettings, siloFixtureMachines]
    try norm_num
  · simp [adjustSiloRecipes, adjustLaunchRecipeObjective,
      siloFixtureAdjusted, siloFixtureSettings, siloFixtureMachines]
    try norm_num

/-- C6 witness: the formula applied to the launch fixture's dependent
recipe. -/
theorem siloRecipeTimeFormulaApplied :
    adjustLaunchRecipeObjective { part := some "rocket-part", time := 203 / 5 }
      siloFixtureSettings siloFixtureAdjusted siloFixtureMachines =
      (82499 / 66000 : ℚ) * 100 / (7 / 5) :=
  siloRecipeTimeFormula.1 { part := some "rocket-part", time := 203 / 5 }
    siloFixtureSettings siloFixtureAdjusted siloFixtureMachines
    "rocket-part" "rocket-silo"
    { machineId := some "rocket-silo", machineCount := 7 / 5 }
    { partsRequired := 100 } { time := 82499 / 66000 }
    rfl (by simp [siloFixtureSettings]) rfl (by decide)
    (by simp [siloFixtureMachines]) (by simp [siloFixtureAdjusted])

/-- C7: the silo/launch adjustment leaves a recipe's time unchanged (and
is total, raising no error) when the recipe has no part reference, the part
has no settings entry, the settings resolve no machine id, an empty machine
id, or a machine id absent from the dataset; a recipe without a part
reference passes through `adjustSiloRecipes` entirely unchanged. -/
theorem siloSkipConditions :
    ∀ (recipe : SiloRecipe) (settings : String → Option SiloSettings)
      (adjusted : String → Option SiloRecipe)
      (machines : String → Option SiloMachine),
      (recipe.part = none →
        adjustLaunchRecipeObjective recipe settings adjusted machines =
          recipe.time) ∧
      (∀ partId, recipe.part = some partId → settings partId = none →
        adjustLaunchRecipeObjective recipe settings adjusted machines =
          recipe.time) ∧
      (∀ partId st, recipe.part = some partId → settings partId = some st →
        st.machineId = none →
        adjustLaunchRecipeObjective recipe settings adjusted machines =
          recipe.time) ∧
      (∀ partId st, recipe.part = some partId → settings partId = some st →
        st.machineId = some "" →
        adjustLaunchRecipeObjective recipe settings adjusted machines =
          recipe.time) ∧
      (∀ partId st machineId, recipe.part = some partId →
        settings partId = some st → st.machineId = some machineId →
        machines machineId = none →
        adjustLaunchRecipeObjective recipe settings adjusted machines =
          recipe.time) ∧
      (∀ id r, adjusted id = some r → r.part = none →
        adjustSiloRecipes adjusted settings machines id = some r) := by
  intro recipe settings adjusted machines
  refine ⟨?_, ?_, ?_, ?_, ?_, ?_⟩
  · intro h
    simp [adjustLaunchRecipeObjective, h]
  · intro partId h1 h2
    simp [adjustLaunchRecipeObjective, h1, h2]
  · intro partId st h1 h2 h3
    simp [adjustLaunchRecipeObjective, h1, h2, h3]
  · intro partId st h1 h2 h3
    simp [adjustLaunchRecipeObjective, h1, h2, h3]
  · intro partId st machineId h1 h2 h3 h4
    simp [adjustLaunchRecipeObjective, h1, h2, h3, h4]
  · intro id r h1 h2
    cases r with
    | mk p t =>
      have hp : p = none := h2
      subst hp
      simp [adjustSiloRecipes, adjustLaunchRecipeObjective, h1]

/-- C7 witness: a recipe with no part reference keeps its time. -/
theorem siloSkipConditionsApplied :
    adjustLaunchRecipeObjective ({ time := 5 } : SiloRecipe)
      (fun _ => none) (fun _ => none) (fun _ => none) = 5 :=
  (siloSkipConditions { time := 5 } (fun _ => none) (fun _ => none)
    (fun _ => none)).1 rfl

/-- C8: a negative resolved usage (a power producer) yields a negative
consumption -- the sign is preserved under the consumption multiplier and
any positive overclock, never clamped to a positive value; the fixture with
usage -10 at 200% overclock yields exactly -20. -/
theorem powerProducerSignPreserved :
    (∀ (recipe : SpecRecipe) (machine : SpecMachine) (settings : SpecSettings)
        (global : SpecGlobal),
        recipe.usage.getD machine.usage < 0 →
        (∀ pct, settings.overclock = some pct → 0 < pct) →
        (adjustRecipe recipe machine settings global).consumption < 0) ∧
    (adjustRecipe steelChest { assemblingMachine2 with usage := -10 }
      { overclock := some 200 } factorioGlobal).consumption = -20 := by
  constructor
  · intro recipe machine settings global hu hoc
    have hcons : (0 : ℚ) <
        (aggregateEffects settings.modules settings.beacons
          machine.disallowedEffects).consumption :=
      lt_of_lt_of_le (by norm_num [EFFECT_FLOOR]) (le_max_left _ _)
    rw [adjustRecipe_consumption]
    cases hoc2 : settings.overclock with
    | none =>
      simpa using mul_neg_of_neg_of_pos (mul_neg_of_neg_of_pos hu hcons) one_pos
    | some pct =>
      have hpct := hoc pct hoc2
      have hnot : ¬ 0 < recipe.usage.getD machine.usage := not_lt.mpr hu.le
      simp only [hnot, if_false]
      exact mul_neg_of_neg_of_pos (mul_neg_of_neg_of_pos hu hcons)
        (by positivity)
  · norm_num [adjustRecipe, aggregateEffects, channelSum, effectMultiplier,
      EFFECT_FLOOR, overclockUsageFactor, steelChest, assemblingMachine2,
      factorioGlobal, max_def]

/-- C8 witness: the sign-preservation law at the fixture producer. -/
theorem powerProducerSignApplied :
    (adjustRecipe steelChest { assemblingMachine2 with usage := -10 }
      { overclock := some 200 } factorioGlobal).consumption < 0 :=
  powerProducerSignPreserved.1 steelChest
    { assemblingMachine2 with usage := -10 } { overclock := some 200 }
    factorioGlobal (by norm_num [steelChest, assemblingMachine2])
    (fun pct h => by
      simp only [Option.some.injEq] at h
      rw [← h]
      norm_num)

/-- A truthy `string | undefined` value is in particular defined. -/
theorem truthyIsSome {o : Option String} (h : truthy o = true) :
    o.isSome = true := by
  cases o with
  | none => simp [truthy] at h
  | some s => rfl

/-- C10 counterexample: with a stackable item, no stored per-item belt and
global settings lacking a belt id, `selectItemsState` produces an entry
whose `beltId` is unset -- the fallback chain is not total for stackable
items. -/
theorem beltIdFallbackCounterexample :
    (selectItemsState (fun _ => none) beltGapItems beltGapSettings
      "iron-plate").map ItemState.beltId = some none := by
  simp [selectItemsState, computeItemSettings, truthy, beltGapItems,
    beltGapSettings]

/-- C10 (amended): each computed entry's `beltId` follows the selector's
fallback chain -- the stored beltId when truthy; else the global belt id
for stackable items (defined only when the global settings define one);
else, for fluids, the global pipe id when truthy and the built-in pipe id
otherwise -- so `beltId` is defined whenever the item is a fluid, the
stored beltId is truthy, or the global belt id is set; and
`selectItemsState` computes exactly this entry for each dataset item. -/
theorem beltIdFallbackChain :
    (∀ (stored : Option ItemState) (item : DataItem)
        (settings : GlobalSettings),
      (truthy (stored.getD {}).beltId = true →
        (computeItemSettings stored item settings).beltId =
          (stored.getD {}).beltId) ∧
      (truthy (stored.getD {}).beltId = false → item.stack.isSome = true →
        (computeItemSettings stored item settings).beltId = settings.beltId) ∧
      (truthy (stored.getD {}).beltId = false → item.stack.isSome = false →
        truthy settings.pipeId = true →
        (computeItemSettings stored item settings).beltId = settings.pipeId) ∧
      (truthy (stored.getD {}).beltId = false → item.stack.isSome = false →
        truthy settings.pipeId = false →
        (computeItemSettings stored item settings).beltId = some pipeItemId) ∧
      (item.stack.isSome = false ∨ settings.beltId.isSome = true ∨
          truthy (stored.getD {}).beltId = true →
        ((computeItemSettings stored item settings).beltId).isSome = true)) ∧
    (∀ (state : String → Option ItemState) (items : List DataItem)
        (settings : GlobalSettings) (id : String) (item : DataItem),
      items.reverse.find? (fun it => it.id == id) = some item →
      selectItemsState state items settings id =
        some (computeItemSettings (state item.id) item settings)) := by
  constructor
  · intro stored item settings
    refine ⟨?_, ?_, ?_, ?_, ?_⟩
    · intro h1
      simp [computeItemSettings, h1]
    · intro h1 h2
      simp [computeItemSettings, h1, h2]
    · intro h1 h2 h3
      simp [computeItemSettings, h1, h2, h3]
    · intro h1 h2 h3
      simp [computeItemSettings, h1, h2, h3]
    · intro h1
      by_cases hb : truthy (stored.getD {}).beltId
      · simp [computeItemSettings, hb, truthyIsSome hb]
      · rcases h1 with h1 | h1 | h1
        · by_cases hp : truthy settings.pipeId
          · simp [computeItemSettings, hb, hp, h1, truthyIsSome hp]
          · simp [computeItemSettings, hb, hp, h1]
        · by_cases hs : item.stack.isSome
          · simp [computeItemSettings, hb, hs, h1]
          · by_cases hp : truthy settings.pipeId
            · simp [computeItemSettings, hb, hs, hp, truthyIsSome hp]
            · simp [computeItemSettings, hb, hs, hp]
        · exact absurd h1 hb
  · intro state items settings id item h
    simp [selectItemsState, h]

/-- C10 witness: a fluid item with empty settings resolves to the built-in
pipe id, a defined belt. -/
theorem beltIdFallbackChainApplied :
    ((computeItemSettings none { id := "water" } {}).beltId).isSome = true :=
  ((beltIdFallbackChain.1 none { id := "water" } {}).2.2.2.2) (Or.inl rfl)

/-- C9: for every version tag other than the latest, `migrateAny` (for any
behaviour of the external zip helpers, any params and either bare/hash
mode) returns params stamped with the latest version tag (Version10);
each per-version migration chains forward so that the final write of the
chain is `migrateV9` stamping Version10; and the already-latest tag returns
the params unchanged with no warnings. -/
theorem migrateAnyStampsLatestVersion :
    (∀ (svc : ZipSvc) (params : Params) (isBare : Bool) (v : ZipVersion),
        v ≠ ZipVersion.version10 →
        (migrateAny svc params isBare v).params ZipSection.version =
          some ZipVersion.version10.val) ∧
    (∀ (svc : ZipSvc) (params : Params) (isBare : Bool),
        migrateAny svc params isBare ZipVersion.version10 =
          { params := params, warnings := [], isBare := isBare }) ∧
    (∀ (svc : ZipSvc) (st : MigrationState),
        (migrateV0 svc st).params ZipSection.version =
          some ZipVersion.version10.val ∧
        (migrateV1 svc st).params ZipSection.version =
          some ZipVersion.version10.val ∧
        (migrateV2 svc st).params ZipSection.version =
          some ZipVersion.version10.val ∧
        (migrateV3 svc st).params ZipSection.version =
          some ZipVersion.version10.val ∧
        (migrateV4 svc st).params ZipSection.version =
          some ZipVersion.version10.val ∧
        (migrateV5 svc st).params ZipSection.version =
          some ZipVersion.version10.val ∧
        (migrateV6 svc st).params ZipSection.version =
          some ZipVersion.version10.val ∧
        (migrateV7 svc st).params ZipSection.version =
          some ZipVersion.version10.val ∧
        (migrateV8 svc st).params ZipSection.version =
          some ZipVersion.version10.val ∧
        (migrateV9 svc st).params ZipSection.version =
          some ZipVersion.version10.val) := by
  refine ⟨?_, ?_, ?_⟩
  · intro svc params isBare v hv
    cases v <;> first | rfl | exact absurd rfl hv
  · intro svc params isBare
    rfl
  · intro svc st
    exact ⟨rfl, rfl, rfl, rfl, rfl, rfl, rfl, rfl, rfl, rfl⟩

/-- C9 witness: a Version0 params entity migrated with the trivial helper
instantiation carries the Version10 tag. -/
theorem migrateAnyStampsApplied :
    (migrateAny trivialZipSvc (fun _ => none) true ZipVersion.version0).params
      ZipSection.version = some ZipVersion.version10.val :=
  migrateAnyStampsLatestVersion.1 trivialZipSvc (fun _ => none) true
    ZipVersion.version0 (by decide)

end FactorioLab
